import Mathlib

/-!
Verification development for the weather ETL pipeline
(record decoder, quality scorer, fact store, file lifecycle, aggregation).

Numeric values are modelled exactly over ℚ / Int (the repository's decimal
constants 0.2, 0.1, 0.3, 0.9, ... are the rationals 2/10, 1/10, 3/10, 9/10, ...),
and timestamps are abstract Nat values passed in explicitly.
-/

namespace Weather

/-- A calendar date as produced by `datetime.strptime(s, "%Y%m%d").date()`. -/
structure PyDate where
  year : Nat
  month : Nat
  day : Nat
deriving DecidableEq

/-- Whitespace characters stripped by Python's `str.strip()`
(ASCII part; exotic unicode spaces are irrelevant to the inputs here). -/
def pySpace (c : Char) : Bool :=
  c = ' ' || c = '\t' || c = '\n' || c = '\r' || c = '\x0b' || c = '\x0c' ||
  c = '\x1c' || c = '\x1d' || c = '\x1e' || c = '\x1f' || c = '\x85'

/-- Python `s.strip()`. -/
def pyStrip (s : String) : String :=
  ⟨((s.data.dropWhile pySpace).reverse.dropWhile pySpace).reverse⟩

def splitTabChars : List Char → List Char → List String
  | [], acc => [⟨acc.reverse⟩]
  | c :: cs, acc =>
    if c = '\t' then ⟨acc.reverse⟩ :: splitTabChars cs [] else splitTabChars cs (c :: acc)

/-- Python `s.split('\t')`: split at every tab, n tabs give n+1 parts. -/
def pySplitTab (s : String) : List String :=
  splitTabChars s.data []

def digitVal (c : Char) : Nat := c.toNat - '0'.toNat

/-- Digit tail of a Python integer literal: digits with single underscores
allowed between digits (as accepted by `int(str)`). -/
def pyIntDigits : List Char → Nat → Option Nat
  | [], acc => some acc
  | '_' :: c :: cs, acc => if c.isDigit then pyIntDigits cs (acc * 10 + digitVal c) else none
  | ['_'], _ => none
  | c :: cs, acc => if c.isDigit then pyIntDigits cs (acc * 10 + digitVal c) else none

/-- Python `int(s)` after stripping: optional sign, then digit/underscore body. -/
def pyParseIntCore : List Char → Option Int
  | [] => none
  | '-' :: cs =>
    match cs with
    | c :: cs2 => if c.isDigit then (pyIntDigits cs2 (digitVal c)).map (fun n => -(n : Int)) else none
    | [] => none
  | '+' :: cs =>
    match cs with
    | c :: cs2 => if c.isDigit then (pyIntDigits cs2 (digitVal c)).map (fun n => (n : Int)) else none
    | [] => none
  | c :: cs => if c.isDigit then (pyIntDigits cs (digitVal c)).map (fun n => (n : Int)) else none

/-- Python `int(s)`: `None` models a raised `ValueError`. -/
def pyParseInt (s : String) : Option Int :=
  pyParseIntCore (pyStrip s).data

/-- Month alternatives of CPython's `_strptime` regex for `%m`,
in priority order: `1[0-2] | 0[1-9] | [1-9]`. -/
def altsMonth : List Char → List (Nat × List Char)
  | c1 :: c2 :: cs =>
    (if c1 = '1' && ('0' ≤ c2 && c2 ≤ '2') then [(10 + digitVal c2, cs)] else []) ++
    (if c1 = '0' && ('1' ≤ c2 && c2 ≤ '9') then [(digitVal c2, cs)] else []) ++
    (if '1' ≤ c1 && c1 ≤ '9' then [(digitVal c1, c2 :: cs)] else [])
  | [c1] => if '1' ≤ c1 && c1 ≤ '9' then [(digitVal c1, [])] else []
  | [] => []

/-- Day alternatives of the `%d` regex, in priority order:
`3[01] | [12]\d | 0[1-9] | [1-9]`. -/
def altsDay : List Char → List (Nat × List Char)
  | c1 :: c2 :: cs =>
    (if c1 = '3' && (c2 = '0' || c2 = '1') then [(30 + digitVal c2, cs)] else []) ++
    (if (c1 = '1' || c1 = '2') && c2.isDigit then [(10 * digitVal c1 + digitVal c2, cs)] else []) ++
    (if c1 = '0' && ('1' ≤ c2 && c2 ≤ '9') then [(digitVal c2, cs)] else []) ++
    (if '1' ≤ c1 && c1 ≤ '9' then [(digitVal c1, c2 :: cs)] else [])
  | [c1] => if '1' ≤ c1 && c1 ≤ '9' then [(digitVal c1, [])] else []
  | [] => []

/-- Match `%m%d` with regex-style backtracking: a month alternative is kept
only if some day alternative matches the remainder; the day takes its first
successful alternative (nothing follows it in the pattern). -/
def matchMonthDay (cs : List Char) : Option (Nat × Nat × List Char) :=
  (altsMonth cs).findSome? (fun mr => ((altsDay mr.2).head?).map (fun dr => (mr.1, dr.1, dr.2)))

def isLeap (y : Nat) : Bool := y % 4 = 0 && (y % 100 ≠ 0 || y % 400 = 0)

def daysInMonth (y m : Nat) : Nat :=
  if m = 2 then (if isLeap y then 29 else 28)
  else if m = 4 || m = 6 || m = 9 || m = 11 then 30
  else 31

/-- `datetime.strptime(s, "%Y%m%d").date()`: 4-digit year, regex month/day,
no unconverted data allowed, then calendar validation (MINYEAR = 1). -/
def strptimeYmd (s : String) : Option PyDate :=
  match s.data with
  | y1 :: y2 :: y3 :: y4 :: rest =>
    if y1.isDigit && y2.isDigit && y3.isDigit && y4.isDigit then
      let y := ((digitVal y1 * 10 + digitVal y2) * 10 + digitVal y3) * 10 + digitVal y4
      match matchMonthDay rest with
      | some (m, d, rest2) =>
        if rest2 = [] ∧ 1 ≤ y ∧ d ≤ daysInMonth y m then some ⟨y, m, d⟩ else none
      | none => none
    else none
  | _ => none

/-- A Python exception escaping a decoder (message elided). -/
inductive PyErr
  | valueError
deriving DecidableEq

instance exceptDecEq {ε α : Type} [DecidableEq ε] [DecidableEq α] :
    DecidableEq (Except ε α) := fun x y =>
  match x, y with
  | Except.ok a, Except.ok b =>
    if h : a = b then isTrue (h ▸ rfl) else isFalse (fun hc => h (Except.ok.inj hc))
  | Except.ok _, Except.error _ => isFalse (fun hc => Except.noConfusion hc)
  | Except.error e, Except.error f =>
    if h : e = f then isTrue (h ▸ rfl) else isFalse (fun hc => h (Except.error.inj hc))
  | Except.error _, Except.ok _ => isFalse (fun hc => Except.noConfusion hc)

/-- The raw decoded observation shared by all three decoders:
date plus the three raw tenths-of-unit fields (sentinel `-9999` ↦ none). -/
structure RawObs where
  observation_date : PyDate
  raw_max_temp : Option Int
  raw_min_temp : Option Int
  raw_precip : Option Int
deriving DecidableEq

/-- One raw field: the sentinel string maps to missing, otherwise `int(s)`
(whose failure is a raised `ValueError`). -/
def parseRawField (s : String) : Except PyErr (Option Int) :=
  if s = "-9999" then Except.ok none
  else
    match pyParseInt s with
    | some z => Except.ok (some z)
    | none => Except.error PyErr.valueError

/-- The raising body shared by the decoders, field order as in the source:
date, max, min, precip. -/
def parseObsE (dateStr maxStr minStr precipStr : String) : Except PyErr RawObs := do
  let d ← match strptimeYmd dateStr with
    | some d => Except.ok d
    | none => Except.error PyErr.valueError
  let rmax ← parseRawField maxStr
  let rmin ← parseRawField minStr
  let rpre ← parseRawField precipStr
  Except.ok ⟨d, rmax, rmin, rpre⟩

/-- The fully decoded observation of `src/ingest.py` (raw + clean values). -/
structure Parsed where
  observation_date : PyDate
  raw_max_temp : Option Int
  raw_min_temp : Option Int
  raw_precip : Option Int
  max_temp_c : Option ℚ
  min_temp_c : Option ℚ
  precip_mm : Option ℚ
  precip_cm : Option ℚ
deriving DecidableEq

/-- Clean/generated values: raw / 10.0, and precip_cm = precip_mm / 10.0. -/
def enrich (r : RawObs) : Parsed :=
  let mx := r.raw_max_temp.map (fun z => (z : ℚ) / 10)
  let mn := r.raw_min_temp.map (fun z => (z : ℚ) / 10)
  let pm := r.raw_precip.map (fun z => (z : ℚ) / 10)
  ⟨r.observation_date, r.raw_max_temp, r.raw_min_temp, r.raw_precip,
   mx, mn, pm, pm.map (fun q => q / 10)⟩

/-- Field-level part of `src/ingest.py parse_weather_line` (after the
4-field destructuring); the surrounding try/except turns any raise into None. -/
def parseWeatherFields (dateStr maxStr minStr precipStr : String) : Option Parsed :=
  match parseObsE dateStr maxStr minStr precipStr with
  | Except.ok r => some (enrich r)
  | Except.error _ => none

/-- `src/ingest.py parse_weather_line`: strip, split on tabs, require exactly
4 fields, decode; all exceptions are caught and become a skip (None). -/
def parse_weather_line (line : String) : Option Parsed :=
  match pySplitTab (pyStrip line) with
  | [a, b, c, d] => parseWeatherFields a b c d
  | _ => none

/-- `answers/etl_runner.py parse_line`: field count checked first, the body
is wrapped in try/except, so every failure is a skip (None). -/
def etl_parse_line (line : String) : Option RawObs :=
  match pySplitTab (pyStrip line) with
  | [a, b, c, d] => (parseObsE a b c d).toOption
  | _ => none

/-- `answers/ingest_weather.py parse_line`: no try/except — only the wrong
field count yields a skip; date/int failures escape as exceptions. -/
def iw_parse_line (line : String) : Except PyErr (Option RawObs) :=
  match pySplitTab (pyStrip line) with
  | [a, b, c, d] => (parseObsE a b c d).map some
  | _ => Except.ok none

/-! ## Quality scorer (src/ingest.py, lines 200-229) -/

/-- `missing_values`: how many of the three clean fields are null. -/
def missing_values (p : Parsed) : Nat :=
  [p.max_temp_c, p.min_temp_c, p.precip_mm].countP (fun v => v.isNone)

/-- `outlier_count`: max > 50 or < -50; min > 40 or < -60; precip > 1000
(each check only when the value is present). -/
def outlier_count (p : Parsed) : Nat :=
  (match p.max_temp_c with
   | some v => if 50 < v ∨ v < -50 then 1 else 0
   | none => 0) +
  (match p.min_temp_c with
   | some v => if 40 < v ∨ v < -60 then 1 else 0
   | none => 0) +
  (match p.precip_mm with
   | some v => if 1000 < v then 1 else 0
   | none => 0)

/-- Logical-inconsistency flag: both temperatures present and max < min. -/
def inconsistent (p : Parsed) : Bool :=
  match p.max_temp_c, p.min_temp_c with
  | some a, some b => decide (a < b)
  | _, _ => false

/-- `quality_score`: `max(0.0, 1.0 - missing*0.2 - outliers*0.1)`, then if
inconsistent subtract 0.3 and clamp at 0 again. -/
def quality_score (p : Parsed) : ℚ :=
  let s := max 0 (1 - (missing_values p : ℚ) * (2/10) - (outlier_count p : ℚ) * (1/10))
  if inconsistent p then max 0 (s - 3/10) else s

inductive Quality
  | excellent
  | good
  | fair
  | poor
deriving DecidableEq

/-- Tier mapping: >= 0.9 excellent, >= 0.7 good, >= 0.5 fair, else poor. -/
def tierOf (s : ℚ) : Quality :=
  if 9/10 ≤ s then Quality.excellent
  else if 7/10 ≤ s then Quality.good
  else if 1/2 ≤ s then Quality.fair
  else Quality.poor

/-- `data_quality` assigned to a decoded observation during ingestion. -/
def data_quality (p : Parsed) : Quality :=
  tierOf (quality_score p)

/-! ## Fact store (src/models.py WeatherFact, src/ingest.py upsert) -/

/-- A persisted WeatherFact row (src/models.py). -/
structure WeatherFact where
  station_id : String
  observation_date : PyDate
  source : String
  raw_max_temp : Option Int
  raw_min_temp : Option Int
  raw_precip : Option Int
  max_temp_c : Option ℚ
  min_temp_c : Option ℚ
  precip_mm : Option ℚ
  precip_cm : Option ℚ
  data_quality : Quality
  quality_score : ℚ
  missing_values : Nat
  outlier_count : Nat
  quality_notes : String
  ingested_at : Nat
  ingest_run_id : String
deriving DecidableEq

/-- Composite primary key (station_id, observation_date, source). -/
abbrev FactKey := String × PyDate × String

def keyOf (f : WeatherFact) : FactKey :=
  (f.station_id, f.observation_date, f.source)

/-- The weather_facts table, as a map from composite key to row. -/
abbrev FactDB := FactKey → Option WeatherFact

/-- The fact row built by `ingest_weather_data` for one decoded line
(`t` models the `datetime.utcnow()` taken at ingestion time). -/
def factOf (station source runId : String) (t : Nat) (p : Parsed) : WeatherFact :=
  { station_id := station
    observation_date := p.observation_date
    source := source
    raw_max_temp := p.raw_max_temp
    raw_min_temp := p.raw_min_temp
    raw_precip := p.raw_precip
    max_temp_c := p.max_temp_c
    min_temp_c := p.min_temp_c
    precip_mm := p.precip_mm
    precip_cm := p.precip_cm
    data_quality := data_quality p
    quality_score := quality_score p
    missing_values := missing_values p
    outlier_count := outlier_count p
    quality_notes := "Missing: " ++ toString (missing_values p) ++
      ", Outliers: " ++ toString (outlier_count p)
    ingested_at := t
    ingest_run_id := runId }

/-- The three dialect branches of `upsert_weather_fact`. -/
inductive Dialect
  | sqlite
  | postgresql
  | other
deriving DecidableEq

/-- `upsert_weather_fact`: sqlite and postgresql use insert ... on conflict
do update with `set_` = all fields; the fallback inserts, and on
IntegrityError updates every field of the existing row. All three store the
incoming row in full at its composite key. -/
def upsert_weather_fact (d : Dialect) (db : FactDB) (f : WeatherFact) : FactDB :=
  match d with
  | Dialect.sqlite => fun k => if k = keyOf f then some f else db k
  | Dialect.postgresql => fun k => if k = keyOf f then some f else db k
  | Dialect.other =>
    match db (keyOf f) with
    | none => fun k => if k = keyOf f then some f else db k
    | some _ => fun k => if k = keyOf f then some f else db k

/-- CHECK constraints of src/models.py: raw temperatures in [-9999, 6000],
raw precipitation in [0, 10000], or NULL. -/
def rawInBounds (p : Parsed) : Bool :=
  (match p.raw_max_temp with
   | some z => decide (-9999 ≤ z ∧ z ≤ 6000)
   | none => true) &&
  (match p.raw_min_temp with
   | some z => decide (-9999 ≤ z ∧ z ≤ 6000)
   | none => true) &&
  (match p.raw_precip with
   | some z => decide (0 ≤ z ∧ z ≤ 10000)
   | none => true)

/-- The per-line loop of `ingest_weather_data` over one file: blank lines and
parse failures are skipped; each decoded line is scored and upserted (with a
per-line commit). A CHECK-constraint violation raises IntegrityError, which
escapes to the outer handler: the run stops with the failing line rolled back
(prior lines stay committed) — the Bool component is false in that case. -/
def ingestRun (station source runId : String) (d : Dialect) (t : Nat) :
    List String → FactDB → Nat → FactDB × Nat × Bool
  | [], db, n => (db, n, true)
  | l :: ls, db, n =>
    if pyStrip l = "" then ingestRun station source runId d t ls db n
    else
      match parse_weather_line l with
      | none => ingestRun station source runId d t ls db n
      | some p =>
        if rawInBounds p then
          ingestRun station source runId d t ls
            (upsert_weather_fact d db (factOf station source runId t p)) (n + 1)
        else (db, n, false)

/-! ## answers/etl_runner.py: weather table, INSERT OR IGNORE, sweep -/

/-- A row of the answers-side `weather` table (raw tenths stored directly;
the columns keep the source's names despite holding raw integers). -/
structure WRow where
  max_temp_c : Option Int
  min_temp_c : Option Int
  precipitation_mm : Option Int
deriving DecidableEq

/-- Primary key (station_id, date) of the `weather` table. -/
abbrev WKey := String × PyDate

abbrev WDB := WKey → Option WRow

/-- `INSERT OR IGNORE`: an insert whose key already exists leaves the
existing row untouched. -/
def insertOrIgnore (db : WDB) (k : WKey) (r : WRow) : WDB :=
  fun k2 =>
    if k2 = k then
      match db k with
      | some old => some old
      | none => some r
    else db k2

/-- One line of `process_file`: parse, and if decoded, INSERT OR IGNORE. -/
def applyLine (st : String) (db : WDB) (line : String) : WDB :=
  match etl_parse_line line with
  | some o => insertOrIgnore db (st, o.observation_date)
      ⟨o.raw_max_temp, o.raw_min_temp, o.raw_precip⟩
  | none => db

/-- `process_file`: line-by-line ingestion of a file's lines. -/
def process_file (st : String) (lines : List String) (db : WDB) : WDB :=
  lines.foldl (applyLine st) db

def lastDotIdx : List Char → Option Nat
  | [] => none
  | c :: cs =>
    match lastDotIdx cs with
    | some i => some (i + 1)
    | none => if c = '.' then some 0 else none

/-- `os.path.splitext(basename)[0]`: cut at the last dot, unless every
character before it is a dot. -/
def stemOf (name : String) : String :=
  match lastDotIdx name.data with
  | none => name
  | some i => if (name.data.take i).all (fun c => c = '.') then name else ⟨name.data.take i⟩

/-- A file in the watch directory. `failAt = some j` models an exception
escaping `process_file` while handling line j (0-based): the lines before j
were applied, the file is not archived. `failAt = none` is a clean pass. -/
structure EtlFile where
  name : String
  lines : List String
  failAt : Option Nat
deriving DecidableEq

/-- The lines actually applied to the database for this file. -/
def effLines (f : EtlFile) : List String :=
  match f.failAt with
  | none => f.lines
  | some j => f.lines.take j

def clearFail (f : EtlFile) : EtlFile :=
  { f with failAt := none }

structure SweepResult where
  db : WDB
  archived : List String
  pending : List EtlFile

/-- Python `s.endswith(suffix)`. -/
def pyEndsWith (s suffix : String) : Bool :=
  suffix.data.isSuffixOf s.data

/-- One sweep of `main`: each `.txt` file is processed; on success it is
archived (moved out of the watch directory), on failure it is logged and left
in place for the next sweep. Partial progress stays committed (the single
`conn.commit()` at the end of `main` covers it). -/
def sweep : List EtlFile → WDB → SweepResult
  | [], db => ⟨db, [], []⟩
  | f :: fs, db =>
    if pyEndsWith f.name ".txt" then
      let r := sweep fs (process_file (stemOf f.name) (effLines f) db)
      ⟨r.db,
       if f.failAt.isNone then f.name :: r.archived else r.archived,
       if f.failAt.isNone then r.pending else f :: r.pending⟩
    else sweep fs db

/-! ## Aggregation (src/analyze.py and answers/aggregate_stats.py) -/

/-- One result row of `annual_weather_aggregation`. -/
structure AnnualRow where
  avg_max_temp_c : Option ℚ
  avg_min_temp_c : Option ℚ
  total_precip_mm : Option ℚ
  record_count : Nat
  avg_quality_score : Option ℚ
deriving DecidableEq

/-- SQL AVG: nulls are ignored; NULL when no non-null value exists. -/
def sqlAvg (xs : List (Option ℚ)) : Option ℚ :=
  let vs := xs.filterMap id
  if vs.isEmpty then none else some (vs.sum / (vs.length : ℚ))

/-- SQL SUM: nulls are ignored; NULL when no non-null value exists. -/
def sqlSum (xs : List (Option ℚ)) : Option ℚ :=
  let vs := xs.filterMap id
  if vs.isEmpty then none else some vs.sum

/-- The GROUP BY (station_id, year) group of a station-year. -/
def annualGroup (facts : List WeatherFact) (st : String) (y : Nat) : List WeatherFact :=
  facts.filter (fun f => f.station_id == st && f.observation_date.year == y)

/-- `annual_weather_aggregation` (src/analyze.py), one station-year group:
AVG over clean values, SUM of precip, COUNT of all rows, AVG quality score. -/
def annual_weather_aggregation (facts : List WeatherFact) (st : String) (y : Nat) :
    AnnualRow :=
  let g := annualGroup facts st y
  { avg_max_temp_c := sqlAvg (g.map (fun f => f.max_temp_c))
    avg_min_temp_c := sqlAvg (g.map (fun f => f.min_temp_c))
    total_precip_mm := sqlSum (g.map (fun f => f.precip_mm))
    record_count := g.length
    avg_quality_score := sqlAvg (g.map (fun f => some f.quality_score)) }

/-- A `weather` table row together with its key, as read by
answers/aggregate_stats.py. -/
structure WTRow where
  station_id : String
  date : PyDate
  max_temp_c : Option Int
  min_temp_c : Option Int
  precipitation_mm : Option Int
deriving DecidableEq

structure SummaryRow where
  avg_max_temp_c : ℚ
  avg_min_temp_c : ℚ
  total_precip_cm : ℚ
deriving DecidableEq

/-- INSERT_SUMMARY_SQL of answers/aggregate_stats.py for one station-year:
the WHERE clause drops every row in which ANY of the three metrics is NULL
before grouping; averages are over the surviving rows only, divided by 10
(tenths to units), the precipitation sum divided by 100 (tenths of mm to cm).
A station-year with no surviving row produces no summary row (none). -/
def summaryRowFor (rows : List WTRow) (st : String) (y : Nat) : Option SummaryRow :=
  let g := rows.filter (fun r =>
    r.station_id == st && r.date.year == y &&
    r.max_temp_c.isSome && r.min_temp_c.isSome && r.precipitation_mm.isSome)
  if g.isEmpty then none
  else
    let mx := g.filterMap (fun r => r.max_temp_c)
    let mn := g.filterMap (fun r => r.min_temp_c)
    let pr := g.filterMap (fun r => r.precipitation_mm)
    some
      { avg_max_temp_c := ((mx.map (fun z => (z : ℚ))).sum / (mx.length : ℚ)) / 10
        avg_min_temp_c := ((mn.map (fun z => (z : ℚ))).sum / (mn.length : ℚ)) / 10
        total_precip_cm := (pr.map (fun z => (z : ℚ))).sum / 100 }

/-! ## Helper definitions for the proofs -/

/-- Clamp to [0, 1]; the spec-side single clamp of the score formula. -/
def clamp01 (q : ℚ) : ℚ := min 1 (max 0 q)

/-- The quality score as a function of (missing_count, outlier_count,
inconsistency); `quality_score` is definitionally this function applied to
the derived counts. -/
def qscoreMOC (m o : Nat) (c : Bool) : ℚ :=
  let s := max 0 (1 - (m : ℚ) * (2/10) - (o : ℚ) * (1/10))
  if c then max 0 (s - 3/10) else s

/-- Left-biased choice on optional rows (SQL-style COALESCE of lookups). -/
def dbOr {α : Type} (a b : Option α) : Option α :=
  match a with
  | some x => some x
  | none => b

/-- Erase the lineage timestamp, for comparing rows up to `ingested_at`. -/
def stripTime (f : WeatherFact) : WeatherFact :=
  { f with ingested_at := 0 }

/-- The fact (if any) that one source line writes during ingestion. -/
def lineFact (station source runId : String) (t : Nat) (l : String) :
    Option WeatherFact :=
  if pyStrip l = "" then none
  else (parse_weather_line l).map (factOf station source runId t)

/-- The last fact written for key `k` by a list of lines (replace-upsert
semantics: later lines win). -/
def lastWrite (station source runId : String) (t : Nat) (k : FactKey) :
    List String → Option WeatherFact
  | [] => none
  | l :: ls =>
    dbOr (lastWrite station source runId t k ls)
      (match lineFact station source runId t l with
       | some f => if keyOf f = k then some f else none
       | none => none)

/-- True when no line of the file violates the raw-value CHECK constraints
(so `ingest_weather_data` processes the whole file without aborting). -/
def linesOk (ls : List String) : Bool :=
  ls.all (fun l =>
    match parse_weather_line l with
    | some p => rawInBounds p
    | none => true)

/-- The first row inserted for key `k` by a list of lines under
INSERT OR IGNORE semantics (earlier lines win). -/
def firstRow (st : String) (k : WKey) : List String → Option WRow
  | [] => none
  | l :: ls =>
    match etl_parse_line l with
    | some o =>
      if (st, o.observation_date) = k then
        some ⟨o.raw_max_temp, o.raw_min_temp, o.raw_precip⟩
      else firstRow st k ls
    | none => firstRow st k ls

/-- The row a sweep contributes for key `k` (files in order, first hit wins). -/
def sweepFirst (k : WKey) : List EtlFile → Option WRow
  | [] => none
  | f :: fs =>
    if pyEndsWith f.name ".txt" then
      dbOr (firstRow (stemOf f.name) k (effLines f)) (sweepFirst k fs)
    else sweepFirst k fs

def isFailing (f : EtlFile) : Bool := !f.failAt.isNone

def emptyFactDB : FactDB := fun _ => none

def emptyWDB : WDB := fun _ => none

/-! ## Concrete records used by witnesses and counterexamples -/

/-- Otherwise-perfect record with max 5.0 and min 10.0 (max < min). -/
def c3ex1 : Parsed :=
  ⟨⟨2020, 1, 1⟩, some 50, some 100, some 0, some 5, some 10, some 0, some 0⟩

/-- Record with max 10.0, min 2.0, precipitation missing. -/
def c3ex2 : Parsed :=
  ⟨⟨2020, 1, 1⟩, some 100, some 20, none, some 10, some 2, none, none⟩

/-- Raw decoding of the spec's example line "20200101\t-9999\t10\t5". -/
def c5raw : RawObs := ⟨⟨2020, 1, 1⟩, none, some 10, some 5⟩

def c2line : String := "20200101\t100\t50\t0"

def c2key : FactKey := ("S1", ⟨2020, 1, 1⟩, "manual")

/-- First ingestion of the one-line file, at time 0. -/
def c2db1 : FactDB :=
  (ingestRun "S1" "manual" "default-run-001" Dialect.sqlite 0 [c2line] emptyFactDB 0).1

/-- Second ingestion of the identical file, at time 1. -/
def c2db2 : FactDB :=
  (ingestRun "S1" "manual" "default-run-001" Dialect.sqlite 1 [c2line] c2db1 0).1

/-- A file whose middle line has raw max temperature 99999 (out of range). -/
def c4lines : List String :=
  ["20200101\t10\t5\t0", "20200102\t99999\t5\t0", "20200103\t10\t5\t0"]

def c4res : FactDB × Nat × Bool :=
  ingestRun "S1" "manual" "default-run-001" Dialect.sqlite 0 c4lines emptyFactDB 0

def c1oldRow : WRow := ⟨some 100, some 20, some 0⟩

def c1newRow : WRow := ⟨some 200, some 20, some 0⟩

def c1key : WKey := ("S1", ⟨2020, 1, 1⟩)

/-- The answers-side store after inserting the old row then the new row for
the same key. -/
def c1etlDB : WDB :=
  insertOrIgnore (insertOrIgnore emptyWDB c1key c1oldRow) c1key c1newRow

/-- Two facts for the same station-year with max_temp_c 10.0 and 12.0. -/
def c6fact1 : WeatherFact :=
  ⟨"A", ⟨2020, 1, 1⟩, "manual", some 100, some 50, some 0, some 10, some 5, some 0,
   some 0, Quality.excellent, 1, 0, 0, "Missing: 0, Outliers: 0", 0, "default-run-001"⟩

def c6fact2 : WeatherFact :=
  ⟨"A", ⟨2020, 6, 1⟩, "manual", some 120, some 50, some 0, some 12, some 5, some 0,
   some 0, Quality.excellent, 1, 0, 0, "Missing: 0, Outliers: 0", 0, "default-run-001"⟩

/-- Summary-path rows: same station-year, one row has NULL precipitation. -/
def c6row1 : WTRow := ⟨"A", ⟨2020, 1, 1⟩, some 100, some 0, some 0⟩

def c6row2 : WTRow := ⟨"A", ⟨2020, 1, 2⟩, some 200, some 0, none⟩

def c7fileA : EtlFile := ⟨"a.txt", ["20200101\t1\t2\t3"], none⟩

/-- File b fails while handling its second line (index 1): only line 0 lands. -/
def c7fileB : EtlFile :=
  ⟨"b.txt", ["20200111\t4\t5\t6", "20200112\t7\t8\t9"], some 1⟩

def c7files : List EtlFile := [c7fileA, c7fileB]

def c7sweep1 : SweepResult := sweep c7files emptyWDB

def c7sweep2 : SweepResult := sweep (c7sweep1.pending.map clearFail) c7sweep1.db

def c7clean : SweepResult := sweep (c7files.map clearFail) emptyWDB

def c7keyB2 : WKey := ("b", ⟨2020, 1, 12⟩)

def c1fact : WeatherFact := factOf "S1" "manual" "default-run-001" 0 c3ex1

/-- A store that already holds `c1fact` at its own key. -/
def c1factDB : FactDB := fun k => if k = keyOf c1fact then some c1fact else none

/-- Raw decoding of the line "20200102\t99999\t5\t0" (raw max out of range). -/
def c4raw : RawObs := ⟨⟨2020, 1, 2⟩, some 99999, some 5, some 0⟩

/-! ## Theorems: quality scorer -/

theorem quality_score_eq_MOC (p : Parsed) :
    quality_score p = qscoreMOC (missing_values p) (outlier_count p) (inconsistent p) :=
  rfl

theorem base_le_one (m o : Nat) : 1 - (m : ℚ) * (2/10) - (o : ℚ) * (1/10) ≤ 1 := by
  have h1 : 0 ≤ (m : ℚ) * (2/10) := by positivity
  have h2 : 0 ≤ (o : ℚ) * (1/10) := by positivity
  linarith

theorem qscoreMOC_nonneg (m o : Nat) (c : Bool) : 0 ≤ qscoreMOC m o c := by
  cases c <;> simp only [qscoreMOC, if_true, if_false, Bool.false_eq_true] <;>
    exact le_max_left 0 _

theorem qscoreMOC_le_one (m o : Nat) (c : Bool) : qscoreMOC m o c ≤ 1 := by
  have hb := base_le_one m o
  have h0 : max 0 (1 - (m : ℚ) * (2/10) - (o : ℚ) * (1/10)) ≤ 1 :=
    max_le (by norm_num) hb
  cases c <;> simp only [qscoreMOC, if_true, if_false, Bool.false_eq_true]
  · exact h0
  · exact max_le (by norm_num) (by linarith)

theorem qscoreMOC_single_clamp (m o : Nat) (c : Bool) :
    qscoreMOC m o c =
      max 0 (1 - (m : ℚ) * (2/10) - (o : ℚ) * (1/10) - (if c then 3/10 else 0)) := by
  cases c <;> simp only [qscoreMOC, if_true, if_false, Bool.false_eq_true]
  · ring_nf
  · rcases le_or_lt 0 (1 - (m : ℚ) * (2/10) - (o : ℚ) * (1/10)) with h | h
    · rw [max_eq_right h]
    · rw [max_eq_left h.le, max_eq_left (by linarith), max_eq_left (by linarith)]

theorem qscoreMOC_mono_missing (m m' o : Nat) (c : Bool) (hm : m ≤ m') :
    qscoreMOC m' o c ≤ qscoreMOC m o c := by
  have hc : (m : ℚ) ≤ (m' : ℚ) := by exact_mod_cast hm
  have hs : max 0 (1 - (m' : ℚ) * (2/10) - (o : ℚ) * (1/10)) ≤
      max 0 (1 - (m : ℚ) * (2/10) - (o : ℚ) * (1/10)) :=
    max_le_max (le_refl 0) (by nlinarith)
  cases c <;> simp only [qscoreMOC, if_true, if_false, Bool.false_eq_true]
  · exact hs
  · exact max_le_max (le_refl 0) (by linarith)

theorem qscoreMOC_mono_outlier (m o o' : Nat) (c : Bool) (ho : o ≤ o') :
    qscoreMOC m o' c ≤ qscoreMOC m o c := by
  have hc : (o : ℚ) ≤ (o' : ℚ) := by exact_mod_cast ho
  have hs : max 0 (1 - (m : ℚ) * (2/10) - (o' : ℚ) * (1/10)) ≤
      max 0 (1 - (m : ℚ) * (2/10) - (o : ℚ) * (1/10)) :=
    max_le_max (le_refl 0) (by nlinarith)
  cases c <;> simp only [qscoreMOC, if_true, if_false, Bool.false_eq_true]
  · exact hs
  · exact max_le_max (le_refl 0) (by linarith)

/-- The three deductions together never exceed 0.7: a missing field cannot
also be an outlier, and the 0.3 consistency deduction needs both
temperatures present. -/
theorem deductions_le (p : Parsed) :
    (missing_values p : ℚ) * (2/10) + (outlier_count p : ℚ) * (1/10) +
      (if inconsistent p then (3:ℚ)/10 else 0) ≤ 7/10 := by
  obtain ⟨dt, rmx, rmn, rpr, mx, mn, pm, pc⟩ := p
  rcases mx with _ | a <;> rcases mn with _ | b <;> rcases pm with _ | c <;>
    simp [missing_values, outlier_count, inconsistent] <;>
    (try split_ifs) <;> first | linarith | simp_all | (push_cast; linarith)

theorem tier_iff (s : ℚ) :
    (tierOf s = Quality.excellent ↔ 9/10 ≤ s) ∧
    (tierOf s = Quality.good ↔ 7/10 ≤ s ∧ s < 9/10) ∧
    (tierOf s = Quality.fair ↔ 1/2 ≤ s ∧ s < 7/10) ∧
    (tierOf s = Quality.poor ↔ s < 1/2) := by
  unfold tierOf
  split_ifs with h1 h2 h3 <;>
    (try push_neg at h1) <;> (try push_neg at h2) <;> (try push_neg at h3) <;>
    refine ⟨?_, ?_, ?_, ?_⟩ <;> simp <;>
    first
      | linarith
      | (intros; linarith)
      | (push_neg; intros; linarith)
      | (constructor <;> linarith)

theorem c3ex1_counts :
    missing_values c3ex1 = 0 ∧ outlier_count c3ex1 = 0 ∧ inconsistent c3ex1 = true := by
  refine ⟨by decide, ?_, ?_⟩
  · simp only [outlier_count, c3ex1]
    norm_num
  · simp only [inconsistent, c3ex1]
    norm_num

theorem c3ex2_counts :
    missing_values c3ex2 = 1 ∧ outlier_count c3ex2 = 0 ∧ inconsistent c3ex2 = false := by
  refine ⟨by decide, ?_, ?_⟩
  · simp only [outlier_count, c3ex2]
    norm_num
  · simp only [inconsistent, c3ex2]
    norm_num

theorem c3ex1_score : quality_score c3ex1 = 7/10 := by
  rw [quality_score_eq_MOC, c3ex1_counts.1, c3ex1_counts.2.1, c3ex1_counts.2.2,
    qscoreMOC_single_clamp]
  norm_num [max_def]

theorem c3ex2_score : quality_score c3ex2 = 8/10 := by
  rw [quality_score_eq_MOC, c3ex2_counts.1, c3ex2_counts.2.1, c3ex2_counts.2.2,
    qscoreMOC_single_clamp]
  norm_num [max_def]

/-- C3: the quality scorer computes
score = clamp(1.0 − 0.2·missing − 0.1·outliers − 0.3·[max < min, both present])
and maps it to a tier with inclusive lower bounds (≥0.90 excellent, ≥0.70
good, ≥0.50 fair, else poor); max 5.0 / min 10.0 on an otherwise-perfect
record scores 0.7 ("good"), and max 10.0 / min 2.0 / precip missing scores
0.8 ("good"). -/
theorem C3_quality_scorer :
    (∀ p : Parsed,
        quality_score p =
          clamp01 (1 - (missing_values p : ℚ) * (2/10) - (outlier_count p : ℚ) * (1/10) -
            (if inconsistent p then 3/10 else 0)) ∧
        data_quality p = tierOf (quality_score p)) ∧
    (∀ s : ℚ,
        (tierOf s = Quality.excellent ↔ 9/10 ≤ s) ∧
        (tierOf s = Quality.good ↔ 7/10 ≤ s ∧ s < 9/10) ∧
        (tierOf s = Quality.fair ↔ 1/2 ≤ s ∧ s < 7/10) ∧
        (tierOf s = Quality.poor ↔ s < 1/2)) ∧
    quality_score c3ex1 = 7/10 ∧ data_quality c3ex1 = Quality.good ∧
    quality_score c3ex2 = 8/10 ∧ data_quality c3ex2 = Quality.good := by
  refine ⟨fun p => ⟨?_, rfl⟩, tier_iff, c3ex1_score, ?_, c3ex2_score, ?_⟩
  · rw [quality_score_eq_MOC, qscoreMOC_single_clamp, clamp01]
    rw [min_eq_right]
    have hb := base_le_one (missing_values p) (outlier_count p)
    have h3 : (0:ℚ) ≤ (if inconsistent p then (3:ℚ)/10 else 0) := by
      split_ifs <;> norm_num
    exact max_le (by norm_num) (by linarith)
  · show tierOf (quality_score c3ex1) = Quality.good
    rw [c3ex1_score]
    norm_num [tierOf]
  · show tierOf (quality_score c3ex2) = Quality.good
    rw [c3ex2_score]
    norm_num [tierOf]

/-- C8: the quality score always lies in [0,1], and as a function of
(missing_count, outlier_count, inconsistency) — which is exactly what the
ingestion code computes — it is monotonically non-increasing in
missing_count and in outlier_count, other inputs held fixed. -/
theorem C8_score_bounds_monotone (p : Parsed) (m m' o o' : Nat) (c : Bool)
    (hm : m ≤ m') (ho : o ≤ o') :
    (0 ≤ quality_score p ∧ quality_score p ≤ 1) ∧
    quality_score p = qscoreMOC (missing_values p) (outlier_count p) (inconsistent p) ∧
    qscoreMOC m' o c ≤ qscoreMOC m o c ∧
    qscoreMOC m o' c ≤ qscoreMOC m o c := by
  refine ⟨⟨?_, ?_⟩, quality_score_eq_MOC p, qscoreMOC_mono_missing m m' o c hm,
    qscoreMOC_mono_outlier m o o' c ho⟩
  · rw [quality_score_eq_MOC]
    exact qscoreMOC_nonneg _ _ _
  · rw [quality_score_eq_MOC]
    exact qscoreMOC_le_one _ _ _

/-- Witness for C8 at a concrete record and concrete counts. -/
theorem C8_witness : qscoreMOC 1 0 true ≤ qscoreMOC 0 0 true :=
  (C8_score_bounds_monotone c3ex1 0 1 0 1 true (by norm_num) (by norm_num)).2.2.1

/-- C10: for every decoded observation the quality score is at least 0.3, so
the `max(0.0, ...)` clamps in the ingestion code are never active and the
score equals the unclamped linear formula. -/
theorem C10_clamps_inactive (p : Parsed) :
    3/10 ≤ quality_score p ∧
    quality_score p = 1 - (missing_values p : ℚ) * (2/10) -
      (outlier_count p : ℚ) * (1/10) - (if inconsistent p then 3/10 else 0) := by
  have hd := deductions_le p
  have hs : quality_score p = 1 - (missing_values p : ℚ) * (2/10) -
      (outlier_count p : ℚ) * (1/10) - (if inconsistent p then 3/10 else 0) := by
    rw [quality_score_eq_MOC, qscoreMOC_single_clamp]
    exact max_eq_right (by linarith)
  exact ⟨by rw [hs]; linarith, hs⟩

/-! ## Theorems: record decoder -/

theorem parseRawField_spec (s : String) (v : Option Int)
    (h : parseRawField s = Except.ok v) :
    (s = "-9999" → v = none) ∧
    (s ≠ "-9999" → ∃ z, pyParseInt s = some z ∧ v = some z) := by
  unfold parseRawField at h
  split_ifs at h with hs
  · exact ⟨fun _ => (Except.ok.inj h).symm, fun hn => absurd hs hn⟩
  · refine ⟨fun h2 => absurd h2 hs, fun _ => ?_⟩
    cases hz : pyParseInt s with
    | none => rw [hz] at h; exact Except.noConfusion h
    | some z => rw [hz] at h; exact ⟨z, rfl, (Except.ok.inj h).symm⟩

theorem parseObsE_ok (a b c d : String) (r : RawObs)
    (h : parseObsE a b c d = Except.ok r) :
    strptimeYmd a = some r.observation_date ∧
    parseRawField b = Except.ok r.raw_max_temp ∧
    parseRawField c = Except.ok r.raw_min_temp ∧
    parseRawField d = Except.ok r.raw_precip := by
  unfold parseObsE at h
  cases ha : strptimeYmd a with
  | none => rw [ha] at h; exact Except.noConfusion h
  | some dd =>
    rw [ha] at h
    simp only [bind, Except.bind] at h
    cases hb : parseRawField b with
    | error e => rw [hb] at h; exact Except.noConfusion h
    | ok v1 =>
      rw [hb] at h
      cases hc : parseRawField c with
      | error e => rw [hc] at h; exact Except.noConfusion h
      | ok v2 =>
        rw [hc] at h
        cases hd : parseRawField d with
        | error e => rw [hd] at h; exact Except.noConfusion h
        | ok v3 =>
          rw [hd] at h
          cases Except.ok.inj h
          exact ⟨rfl, rfl, rfl, rfl⟩

theorem enrich_fields (r : RawObs) :
    (enrich r).observation_date = r.observation_date ∧
    (enrich r).raw_max_temp = r.raw_max_temp ∧
    (enrich r).raw_min_temp = r.raw_min_temp ∧
    (enrich r).raw_precip = r.raw_precip ∧
    (enrich r).max_temp_c = r.raw_max_temp.map (fun z => (z : ℚ) / 10) ∧
    (enrich r).min_temp_c = r.raw_min_temp.map (fun z => (z : ℚ) / 10) ∧
    (enrich r).precip_mm = r.raw_precip.map (fun z => (z : ℚ) / 10) ∧
    (enrich r).precip_cm = (enrich r).precip_mm.map (fun q => q / 10) :=
  ⟨rfl, rfl, rfl, rfl, rfl, rfl, rfl, rfl⟩

theorem parse_c5_line :
    parse_weather_line "20200101\t-9999\t10\t5" = some (enrich c5raw) := by
  have hs : pySplitTab (pyStrip "20200101\t-9999\t10\t5") =
      ["20200101", "-9999", "10", "5"] := by decide
  have he : parseObsE "20200101" "-9999" "10" "5" = Except.ok c5raw := by decide
  simp only [parse_weather_line, parseWeatherFields, hs, he]

/-- C5: for every well-formed 4-field line, a sentinel `-9999` field decodes
to null, any other raw integer r decodes to clean value r/10, and precip_cm
is precip_mm divided by 10 again; the line "20200101\t-9999\t10\t5" decodes
to max_temp_c = null, min_temp_c = 1.0, precip_mm = 0.5. -/
theorem C5_decoder :
    (∀ (a b c d : String) (r : Parsed), parseWeatherFields a b c d = some r →
      (b = "-9999" → r.raw_max_temp = none ∧ r.max_temp_c = none) ∧
      (b ≠ "-9999" → ∃ z, pyParseInt b = some z ∧ r.raw_max_temp = some z ∧
        r.max_temp_c = some ((z : ℚ) / 10)) ∧
      (c = "-9999" → r.raw_min_temp = none ∧ r.min_temp_c = none) ∧
      (c ≠ "-9999" → ∃ z, pyParseInt c = some z ∧ r.raw_min_temp = some z ∧
        r.min_temp_c = some ((z : ℚ) / 10)) ∧
      (d = "-9999" → r.raw_precip = none ∧ r.precip_mm = none) ∧
      (d ≠ "-9999" → ∃ z, pyParseInt d = some z ∧ r.raw_precip = some z ∧
        r.precip_mm = some ((z : ℚ) / 10)) ∧
      r.precip_cm = r.precip_mm.map (fun q => q / 10)) ∧
    parse_weather_line "20200101\t-9999\t10\t5" = some (enrich c5raw) ∧
    (enrich c5raw).max_temp_c = none ∧
    (enrich c5raw).min_temp_c = some 1 ∧
    (enrich c5raw).precip_mm = some (1/2) ∧
    (enrich c5raw).precip_cm = some (1/20) := by
  refine ⟨?_, parse_c5_line, rfl, ?_, ?_, ?_⟩
  · intro a b c d r h
    unfold parseWeatherFields at h
    cases he : parseObsE a b c d with
    | error e => rw [he] at h; exact Option.noConfusion h
    | ok raw =>
      rw [he] at h
      cases Option.some.inj h
      obtain ⟨hda, hb, hc, hd2⟩ := parseObsE_ok a b c d raw he
      obtain ⟨hbs, hbn⟩ := parseRawField_spec b raw.raw_max_temp hb
      obtain ⟨hcs, hcn⟩ := parseRawField_spec c raw.raw_min_temp hc
      obtain ⟨hds, hdn⟩ := parseRawField_spec d raw.raw_precip hd2
      refine ⟨?_, ?_, ?_, ?_, ?_, ?_, (enrich_fields raw).2.2.2.2.2.2.2⟩
      · intro hsent
        have h0 := hbs hsent
        simp [enrich, h0]
      · intro hns
        obtain ⟨z, hz1, hz2⟩ := hbn hns
        exact ⟨z, hz1, by simp [enrich, hz2]⟩
      · intro hsent
        have h0 := hcs hsent
        simp [enrich, h0]
      · intro hns
        obtain ⟨z, hz1, hz2⟩ := hcn hns
        exact ⟨z, hz1, by simp [enrich, hz2]⟩
      · intro hsent
        have h0 := hds hsent
        simp [enrich, h0]
      · intro hns
        obtain ⟨z, hz1, hz2⟩ := hdn hns
        exact ⟨z, hz1, by simp [enrich, hz2]⟩
  · show Option.map (fun z => ((z : Int) : ℚ) / 10) (some 10) = some 1
    simp only [Option.map_some']
    norm_num
  · show Option.map (fun z => ((z : Int) : ℚ) / 10) (some 5) = some (1/2)
    simp only [Option.map_some']
    norm_num
  · show Option.map (fun q => q / 10) (Option.map (fun z => ((z : Int) : ℚ) / 10) (some 5)) =
      some (1/20)
    simp only [Option.map_some']
    norm_num

/-- Witness for C5: the general field specification applied to the concrete
example line. -/
theorem C5_witness :
    (enrich c5raw).precip_cm = Option.map (fun q => q / 10) (enrich c5raw).precip_mm :=
  (C5_decoder.1 "20200101" "-9999" "10" "5" (enrich c5raw)
    (by
      have he : parseObsE "20200101" "-9999" "10" "5" = Except.ok c5raw := by decide
      simp only [parseWeatherFields, he])).2.2.2.2.2.2

/-- C9 fails as stated: `answers/ingest_weather.py parse_line` has no
try/except, so a non-numeric field raises a ValueError past the decoder
instead of yielding a skip. -/
theorem C9_counterexample :
    iw_parse_line "20200101\tabc\t10\t5" = Except.error PyErr.valueError := by
  decide

/-- C9 amended: the src decoder and the etl_runner decoder are total — a
wrong field count, a bad date, or a non-numeric field always yields a skip
(None), never an exception; the ingest_weather decoder skips only on a wrong
field count, and whenever it raises, the other two decoders skip. -/
theorem C9_decoder_totality (s : String) :
    ((pySplitTab (pyStrip s)).length ≠ 4 →
      parse_weather_line s = none ∧ etl_parse_line s = none ∧
      iw_parse_line s = Except.ok none) ∧
    (∀ e : PyErr, iw_parse_line s = Except.error e →
      parse_weather_line s = none ∧ etl_parse_line s = none) := by
  cases hp : pySplitTab (pyStrip s) with
  | nil =>
    refine ⟨fun _ => ?_, fun e he => ?_⟩
    · simp [parse_weather_line, etl_parse_line, iw_parse_line, hp]
    · simp only [iw_parse_line, hp] at he
      exact Except.noConfusion he
  | cons a t1 =>
    cases t1 with
    | nil =>
      refine ⟨fun _ => ?_, fun e he => ?_⟩
      · simp [parse_weather_line, etl_parse_line, iw_parse_line, hp]
      · rw [iw_parse_line, hp] at he
        exact Except.noConfusion he
    | cons b t2 =>
      cases t2 with
      | nil =>
        refine ⟨fun _ => ?_, fun e he => ?_⟩
        · simp [parse_weather_line, etl_parse_line, iw_parse_line, hp]
        · simp only [iw_parse_line, hp] at he
          exact Except.noConfusion he
      | cons c t3 =>
        cases t3 with
        | nil =>
          refine ⟨fun _ => ?_, fun e he => ?_⟩
          · simp [parse_weather_line, etl_parse_line, iw_parse_line, hp]
          · simp only [iw_parse_line, hp] at he
            exact Except.noConfusion he
        | cons d t4 =>
          cases t4 with
          | nil =>
            refine ⟨fun hlen => absurd rfl hlen, fun e he => ?_⟩
            simp only [iw_parse_line, hp] at he
            cases hob : parseObsE a b c d with
            | ok r =>
              rw [hob] at he
              simp [Except.map] at he
            | error e2 =>
              constructor
              · simp only [parse_weather_line, parseWeatherFields, hp, hob]
              · simp only [etl_parse_line, hp, hob, Except.toOption]
          | cons e2 t5 =>
            refine ⟨fun _ => ?_, fun e he => ?_⟩
            · simp [parse_weather_line, etl_parse_line, iw_parse_line, hp]
            · simp only [iw_parse_line, hp] at he
              exact Except.noConfusion he

/-- Witness for C9: a one-field line is skipped by all three decoders. -/
theorem C9_witness :
    parse_weather_line "x" = none ∧ etl_parse_line "x" = none ∧
    iw_parse_line "x" = Except.ok none :=
  (C9_decoder_totality "x").1 (by decide)

/-! ## Theorems: fact store (C1) -/

/-- Applying `upsert_weather_fact` is, for every dialect branch, a full
replace at the composite key. -/
theorem upsert_apply (d : Dialect) (db : FactDB) (f : WeatherFact) (k : FactKey) :
    upsert_weather_fact d db f k = if k = keyOf f then some f else db k := by
  cases d
  · rfl
  · rfl
  · simp only [upsert_weather_fact]
    cases db (keyOf f) <;> rfl

/-- C1 fails as stated: the answers ETL storage path uses INSERT OR IGNORE,
so a write whose composite key already exists leaves the old row — the
incoming non-key values are NOT applied. -/
theorem C1_counterexample :
    c1etlDB c1key = some c1oldRow ∧ c1oldRow ≠ c1newRow := by
  decide

/-- C1 amended: the SQLAlchemy fact store overwrites all non-key fields on
conflict in each of its three dialect branches and touches no other key,
while the answers ETL path keeps the existing row unchanged on conflict. -/
theorem C1_upsert_overwrite (d : Dialect) (db : FactDB) (f : WeatherFact)
    (edb : WDB) (k : WKey) (newRow oldRow : WRow)
    (h1 : (db (keyOf f)).isSome = true) (h2 : edb k = some oldRow) :
    upsert_weather_fact d db f (keyOf f) = some f ∧
    (∀ k2, k2 ≠ keyOf f → upsert_weather_fact d db f k2 = db k2) ∧
    insertOrIgnore edb k newRow k = some oldRow := by
  refine ⟨?_, ?_, ?_⟩
  · rw [upsert_apply, if_pos rfl]
  · intro k2 hk
    rw [upsert_apply, if_neg hk]
  · simp [insertOrIgnore, h2]

/-- Witness for C1 at a concrete store and fact. -/
theorem C1_witness :
    upsert_weather_fact Dialect.sqlite c1factDB c1fact (keyOf c1fact) = some c1fact :=
  (C1_upsert_overwrite Dialect.sqlite c1factDB c1fact
    (insertOrIgnore emptyWDB c1key c1oldRow) c1key c1newRow c1oldRow
    (by decide) (by decide)).1

/-! ## Theorems: idempotent re-ingestion (C2) and constraint abort (C4) -/

theorem dbOr_none_right {α : Type} (a : Option α) : dbOr a none = a := by
  cases a <;> rfl

theorem dbOr_assoc {α : Type} (a b c : Option α) :
    dbOr (dbOr a b) c = dbOr a (dbOr b c) := by
  cases a <;> rfl

theorem dbOr_self_absorb {α : Type} (a b : Option α) :
    dbOr a (dbOr a b) = dbOr a b := by
  cases a <;> rfl

/-- Lookup characterization of a full non-aborting ingestion run:
the last write for the key wins, otherwise the store is unchanged. -/
theorem ingestRun_ok_lookup (st src rid : String) (d : Dialect) (t : Nat)
    (L : List String) (k : FactKey) :
    ∀ (db : FactDB) (n : Nat), linesOk L = true →
      (ingestRun st src rid d t L db n).1 k =
        dbOr (lastWrite st src rid t k L) (db k) := by
  induction L with
  | nil => intro db n _; rfl
  | cons l ls ih =>
    intro db n h
    rw [linesOk, List.all_cons, Bool.and_eq_true] at h
    obtain ⟨hl, hls⟩ := h
    by_cases hb : pyStrip l = ""
    · have hline : lineFact st src rid t l = none := by
        simp [lineFact, hb]
      simp only [ingestRun, if_pos hb, lastWrite, hline]
      rw [dbOr_none_right]
      exact ih db n hls
    · cases hpl : parse_weather_line l with
      | none =>
        have hline : lineFact st src rid t l = none := by
          simp [lineFact, hb, hpl]
        simp only [ingestRun, if_neg hb, hpl, lastWrite, hline]
        rw [dbOr_none_right]
        exact ih db n hls
      | some p =>
        have hok : rawInBounds p = true := by
          rw [hpl] at hl
          exact hl
        have hline : lineFact st src rid t l =
            some (factOf st src rid t p) := by
          simp [lineFact, hb, hpl]
        simp only [ingestRun, if_neg hb, hpl, hok, if_pos, lastWrite, hline]
        rw [ih _ (n + 1) hls, dbOr_assoc]
        congr 1
        rw [upsert_apply]
        by_cases hk : keyOf (factOf st src rid t p) = k
        · rw [if_pos hk, if_pos hk.symm]
          rfl
        · rw [if_neg hk, if_neg (fun h2 => hk h2.symm)]
          rfl

/-- The Bool outcome of an ingestion run does not depend on the store, the
counter, or the run timestamp. -/
theorem ingestRun_ok_flag (st src rid : String) (d : Dialect) (t : Nat)
    (L : List String) :
    ∀ (db : FactDB) (n : Nat), linesOk L = true →
      (ingestRun st src rid d t L db n).2.2 = true := by
  induction L with
  | nil => intro db n _; rfl
  | cons l ls ih =>
    intro db n h
    rw [linesOk, List.all_cons, Bool.and_eq_true] at h
    obtain ⟨hl, hls⟩ := h
    by_cases hb : pyStrip l = ""
    · simp only [ingestRun, if_pos hb]
      exact ih db n hls
    · cases hpl : parse_weather_line l with
      | none =>
        simp only [ingestRun, if_neg hb, hpl]
        exact ih db n hls
      | some p =>
        have hok : rawInBounds p = true := by
          rw [hpl] at hl
          exact hl
        simp only [ingestRun, if_neg hb, hpl, hok, if_pos]
        exact ih _ (n + 1) hls

/-- The fact a line writes differs between two run timestamps only in
`ingested_at`. -/
theorem lastWrite_strip (st src rid : String) (t t' : Nat) (k : FactKey)
    (L : List String) :
    Option.map stripTime (lastWrite st src rid t k L) =
      Option.map stripTime (lastWrite st src rid t' k L) := by
  induction L with
  | nil => rfl
  | cons l ls ih =>
    have hmap : ∀ (a b : Option WeatherFact), Option.map stripTime (dbOr a b) =
        dbOr (Option.map stripTime a) (Option.map stripTime b) := by
      intro a b
      cases a <;> rfl
    simp only [lastWrite, hmap, ih]
    congr 1
    unfold lineFact
    by_cases hb : pyStrip l = ""
    · rw [if_pos hb, if_pos hb]
    · rw [if_neg hb, if_neg hb]
      cases hpl : parse_weather_line l with
      | none => rfl
      | some p =>
        simp only [Option.map_some']
        have hkey : keyOf (factOf st src rid t p) = keyOf (factOf st src rid t' p) := rfl
        by_cases hk : keyOf (factOf st src rid t p) = k
        · rw [if_pos hk, if_pos (hkey ▸ hk)]
          rfl
        · rw [if_neg hk, if_neg (hkey ▸ hk)]

/-- C2 fails as stated: re-ingesting the identical one-line file overwrites
the row's `ingested_at` with the later run's timestamp, so the row set is
not byte-for-byte identical — the lineage column changed. -/
theorem C2_counterexample :
    Option.map (fun f => f.ingested_at) (c2db2 c2key) = some 1 ∧
    Option.map (fun f => f.ingested_at) (c2db1 c2key) = some 0 := by
  decide

/-- C2 amended: re-ingesting an identical file leaves every row identical in
every column except `ingested_at` (same keys, same data, same quality
fields); when the two runs carry the same timestamp the row sets are fully
identical. -/
theorem C2_idempotent_up_to_timestamp (st src rid : String) (d : Dialect)
    (t1 t2 : Nat) (L : List String) (db : FactDB) (k : FactKey)
    (h : linesOk L = true) :
    Option.map stripTime
        ((ingestRun st src rid d t2 L (ingestRun st src rid d t1 L db 0).1 0).1 k) =
      Option.map stripTime ((ingestRun st src rid d t1 L db 0).1 k) ∧
    (t1 = t2 →
      (ingestRun st src rid d t2 L (ingestRun st src rid d t1 L db 0).1 0).1 k =
        (ingestRun st src rid d t1 L db 0).1 k) := by
  have h1 := ingestRun_ok_lookup st src rid d t1 L k db 0 h
  have h2 := ingestRun_ok_lookup st src rid d t2 L k
    (ingestRun st src rid d t1 L db 0).1 0 h
  constructor
  · rw [h2, h1]
    have hstrip := lastWrite_strip st src rid t2 t1 k L
    cases hw2 : lastWrite st src rid t2 k L with
    | some f2 =>
      cases hw1 : lastWrite st src rid t1 k L with
      | some f1 =>
        rw [hw2, hw1] at hstrip
        simpa [dbOr] using hstrip
      | none =>
        rw [hw2, hw1] at hstrip
        exact absurd hstrip (by simp)
    | none =>
      cases hw1 : lastWrite st src rid t1 k L with
      | some f1 =>
        rw [hw2, hw1] at hstrip
        exact absurd hstrip (by simp)
      | none =>
        simp [dbOr]
  · intro ht
    subst ht
    rw [h2, h1]
    exact dbOr_self_absorb _ _

/-- Witness for C2 on the concrete one-line file. -/
theorem C2_witness :
    Option.map stripTime (c2db2 c2key) = Option.map stripTime (c2db1 c2key) :=
  (C2_idempotent_up_to_timestamp "S1" "manual" "default-run-001" Dialect.sqlite
    0 1 [c2line] emptyFactDB c2key (by decide)).1

/-- C4 fails as stated: a raw value outside the allowed range is rejected at
the store (the row is never persisted), but the IntegrityError propagates —
ingestion does not skip the line; the run aborts, leaving later lines
unprocessed. Here: line 1 is ingested, line 2 (raw max 99999) aborts the
run, line 3 never lands. -/
theorem C4_counterexample :
    c4res.2.2 = false ∧ c4res.2.1 = 1 ∧
    Option.map (fun f => f.raw_max_temp) (c4res.1 ("S1", ⟨2020, 1, 1⟩, "manual")) =
      some (some 10) ∧
    c4res.1 ("S1", ⟨2020, 1, 2⟩, "manual") = none ∧
    c4res.1 ("S1", ⟨2020, 1, 3⟩, "manual") = none := by
  decide

/-- C4 amended: a decoded line whose raw values violate the CHECK bounds is
rejected at the store boundary — the store is returned unchanged (the row is
never persisted) — and the run aborts at that line instead of skipping it. -/
theorem C4_reject_and_abort (st src rid : String) (d : Dialect) (t : Nat)
    (l : String) (rest : List String) (db : FactDB) (n : Nat) (p : Parsed)
    (hb : pyStrip l ≠ "") (hp : parse_weather_line l = some p)
    (hv : rawInBounds p = false) :
    ingestRun st src rid d t (l :: rest) db n = (db, n, false) := by
  simp [ingestRun, hb, hp, hv]

/-- Witness for C4 on the concrete violating line. -/
theorem C4_witness :
    ingestRun "S1" "manual" "default-run-001" Dialect.sqlite 0
      ["20200102\t99999\t5\t0"] emptyFactDB 0 = (emptyFactDB, 0, false) :=
  C4_reject_and_abort "S1" "manual" "default-run-001" Dialect.sqlite 0
    "20200102\t99999\t5\t0" [] emptyFactDB 0 (enrich c4raw)
    (by decide)
    (by
      have hs : pySplitTab (pyStrip "20200102\t99999\t5\t0") =
          ["20200102", "99999", "5", "0"] := by decide
      have he : parseObsE "20200102" "99999" "5" "0" = Except.ok c4raw := by decide
      simp only [parse_weather_line, parseWeatherFields, hs, he])
    (by decide)

/-! ## Theorems: aggregation (C6) -/

theorem sqlAvg_spec (xs : List (Option ℚ)) :
    (xs.filterMap id = [] → sqlAvg xs = none) ∧
    (xs.filterMap id ≠ [] →
      sqlAvg xs = some ((xs.filterMap id).sum / ((xs.filterMap id).length : ℚ))) := by
  constructor <;> intro h <;> simp [sqlAvg, List.isEmpty_iff, h]

theorem sqlSum_spec (xs : List (Option ℚ)) :
    (xs.filterMap id = [] → sqlSum xs = none) ∧
    (xs.filterMap id ≠ [] → sqlSum xs = some (xs.filterMap id).sum) := by
  constructor <;> intro h <;> simp [sqlSum, List.isEmpty_iff, h]

/-- C6 fails as stated: the answers summary path filters out every row with
ANY null metric before grouping, so its average of max_temp_c is not the
mean over the non-null max values of the group: with raw values 100 and 200
(the 200-row having null precipitation) it reports 10.0 instead of 15.0. -/
theorem C6_counterexample :
    Option.map (fun r => r.avg_max_temp_c) (summaryRowFor [c6row1, c6row2] "A" 2020) =
      some 10 ∧
    sqlAvg ([c6row1, c6row2].map (fun r => r.max_temp_c.map (fun z => (z : ℚ) / 10))) =
      some 15 ∧
    (10 : ℚ) ≠ 15 := by
  refine ⟨?_, ?_, by norm_num⟩
  · simp only [summaryRowFor, c6row1, c6row2]
    norm_num [List.filter, List.filterMap]
  · simp only [sqlAvg, c6row1, c6row2, List.map, Option.map_some']
    norm_num [List.filterMap]

/-- C6 amended: the src aggregation engine computes each mean over only the
non-null values of that metric, sums precipitation ignoring nulls, yields a
null metric for an all-null group, and counts all rows; the concrete
station-year with max 10.0 and 12.0 averages to 11.0 with record_count 2.
(The answers summary path instead drops rows with any null metric first.) -/
theorem C6_aggregation_means (facts : List WeatherFact) (st : String) (y : Nat) :
    (annual_weather_aggregation facts st y).record_count =
      (annualGroup facts st y).length ∧
    (((annualGroup facts st y).map (fun f => f.max_temp_c)).filterMap id = [] →
      (annual_weather_aggregation facts st y).avg_max_temp_c = none) ∧
    (((annualGroup facts st y).map (fun f => f.max_temp_c)).filterMap id ≠ [] →
      (annual_weather_aggregation facts st y).avg_max_temp_c =
        some ((((annualGroup facts st y).map (fun f => f.max_temp_c)).filterMap id).sum /
          ((((annualGroup facts st y).map (fun f => f.max_temp_c)).filterMap id).length : ℚ))) ∧
    (((annualGroup facts st y).map (fun f => f.min_temp_c)).filterMap id = [] →
      (annual_weather_aggregation facts st y).avg_min_temp_c = none) ∧
    (((annualGroup facts st y).map (fun f => f.min_temp_c)).filterMap id ≠ [] →
      (annual_weather_aggregation facts st y).avg_min_temp_c =
        some ((((annualGroup facts st y).map (fun f => f.min_temp_c)).filterMap id).sum /
          ((((annualGroup facts st y).map (fun f => f.min_temp_c)).filterMap id).length : ℚ))) ∧
    (((annualGroup facts st y).map (fun f => f.precip_mm)).filterMap id = [] →
      (annual_weather_aggregation facts st y).total_precip_mm = none) ∧
    (((annualGroup facts st y).map (fun f => f.precip_mm)).filterMap id ≠ [] →
      (annual_weather_aggregation facts st y).total_precip_mm =
        some ((((annualGroup facts st y).map (fun f => f.precip_mm)).filterMap id).sum)) ∧
    (annual_weather_aggregation [c6fact1, c6fact2] "A" 2020).avg_max_temp_c = some 11 ∧
    (annual_weather_aggregation [c6fact1, c6fact2] "A" 2020).record_count = 2 := by
  have hg : annualGroup [c6fact1, c6fact2] "A" 2020 = [c6fact1, c6fact2] := by
    simp [annualGroup, c6fact1, c6fact2]
  refine ⟨rfl,
    (sqlAvg_spec _).1, (sqlAvg_spec _).2,
    (sqlAvg_spec _).1, (sqlAvg_spec _).2,
    (sqlSum_spec _).1, (sqlSum_spec _).2, ?_, ?_⟩
  · show sqlAvg ((annualGroup [c6fact1, c6fact2] "A" 2020).map (fun f => f.max_temp_c)) =
      some 11
    rw [hg]
    simp only [List.map, c6fact1, c6fact2]
    norm_num [sqlAvg, List.filterMap]
  · show (annualGroup [c6fact1, c6fact2] "A" 2020).length = 2
    rw [hg]
    rfl

/-- Witness for C6: the concrete station-year average extracted through the
general theorem. -/
theorem C6_witness :
    (annual_weather_aggregation [c6fact1, c6fact2] "A" 2020).avg_max_temp_c = some 11 :=
  (C6_aggregation_means [] "A" 0).2.2.2.2.2.2.2.1

/-! ## Theorems: file lifecycle (C7) -/

theorem process_lookup (st : String) :
    ∀ (L : List String) (db : WDB) (k : WKey),
      process_file st L db k = dbOr (db k) (firstRow st k L) := by
  intro L
  induction L with
  | nil => intro db k; rw [process_file]; simp [List.foldl, firstRow, dbOr_none_right]
  | cons l ls ih =>
    intro db k
    show process_file st ls (applyLine st db l) k = _
    rw [ih]
    cases hpl : etl_parse_line l with
    | none => simp [applyLine, hpl, firstRow]
    | some o =>
      simp only [applyLine, hpl, firstRow]
      by_cases hk : (st, o.observation_date) = k
      · rw [if_pos hk]
        subst hk
        simp only [insertOrIgnore, if_pos rfl]
        cases hdb : db (st, o.observation_date) <;> rfl
      · rw [if_neg hk]
        have : insertOrIgnore db (st, o.observation_date)
            ⟨o.raw_max_temp, o.raw_min_temp, o.raw_precip⟩ k = db k := by
          simp only [insertOrIgnore]
          rw [if_neg (fun he => hk he.symm)]
        rw [this]

theorem firstRow_take (st : String) (k : WKey) :
    ∀ (L : List String) (j : Nat),
      dbOr (firstRow st k (L.take j)) (firstRow st k L) = firstRow st k L := by
  intro L
  induction L with
  | nil => intro j; simp [List.take_nil, firstRow, dbOr]
  | cons l ls ih =>
    intro j
    cases j with
    | zero => rfl
    | succ j2 =>
      rw [List.take_succ_cons]
      cases hpl : etl_parse_line l with
      | none =>
        simp only [firstRow, hpl]
        exact ih j2
      | some o =>
        simp only [firstRow, hpl]
        by_cases hk : (st, o.observation_date) = k
        · rw [if_pos hk, if_pos hk]
          rfl
        · rw [if_neg hk, if_neg hk]
          exact ih j2

theorem firstRow_station (st : String) (k : WKey) (h : k.1 ≠ st) :
    ∀ L : List String, firstRow st k L = none := by
  intro L
  induction L with
  | nil => rfl
  | cons l ls ih =>
    cases hpl : etl_parse_line l with
    | none =>
      simp only [firstRow, hpl]
      exact ih
    | some o =>
      simp only [firstRow, hpl]
      rw [if_neg (fun he => h (congrArg Prod.fst he).symm)]
      exact ih

theorem sweep_db_lookup (k : WKey) :
    ∀ (fs : List EtlFile) (db : WDB),
      (sweep fs db).db k = dbOr (db k) (sweepFirst k fs) := by
  intro fs
  induction fs with
  | nil => intro db; simp [sweep, sweepFirst, dbOr_none_right]
  | cons f fs2 ih =>
    intro db
    by_cases ht : pyEndsWith f.name ".txt" = true
    · simp only [sweep, sweepFirst, ht, if_true]
      rw [ih, process_lookup, dbOr_assoc]
    · simp only [sweep, sweepFirst, ht, if_false, Bool.false_eq_true]
      exact ih db

theorem sweep_archived_eq :
    ∀ (fs : List EtlFile) (db : WDB),
      (sweep fs db).archived =
        (fs.filter (fun f => pyEndsWith f.name ".txt" && f.failAt.isNone)).map
          (fun f => f.name) := by
  intro fs
  induction fs with
  | nil => intro db; rfl
  | cons f fs2 ih =>
    intro db
    by_cases ht : pyEndsWith f.name ".txt" = true
    · cases hjf : f.failAt with
      | none => simp [sweep, ht, hjf, List.filter_cons, ih]
      | some j => simp [sweep, ht, hjf, List.filter_cons, ih]
    · simp [sweep, ht, List.filter_cons, ih]

theorem sweep_pending_eq :
    ∀ (fs : List EtlFile) (db : WDB),
      (sweep fs db).pending =
        fs.filter (fun f => pyEndsWith f.name ".txt" && !f.failAt.isNone) := by
  intro fs
  induction fs with
  | nil => intro db; rfl
  | cons f fs2 ih =>
    intro db
    by_cases ht : pyEndsWith f.name ".txt" = true
    · cases hjf : f.failAt with
      | none => simp [sweep, ht, hjf, List.filter_cons, ih]
      | some j => simp [sweep, ht, hjf, List.filter_cons, ih]
    · simp [sweep, ht, List.filter_cons, ih]

theorem sweepFirst_none (k : WKey) :
    ∀ fs : List EtlFile, (∀ f ∈ fs, stemOf f.name ≠ k.1) → sweepFirst k fs = none := by
  intro fs
  induction fs with
  | nil => intro _; rfl
  | cons f fs2 ih =>
    intro h
    have hf := h f (List.mem_cons_self f fs2)
    have hr := ih (fun g hg => h g (List.mem_cons_of_mem f hg))
    by_cases ht : pyEndsWith f.name ".txt" = true
    · simp only [sweepFirst, ht, if_true]
      rw [firstRow_station _ _ (Ne.symm hf), hr]
      rfl
    · simp only [sweepFirst, ht, if_false, Bool.false_eq_true]
      exact hr

theorem clearFail_name (f : EtlFile) : (clearFail f).name = f.name := rfl

theorem effLines_clearFail (f : EtlFile) : effLines (clearFail f) = f.lines := rfl

/-- Partial progress of failed files, replayed in full on the next sweep,
contributes exactly what a clean pass contributes (per key, given disjoint
station stems and `.txt` names). -/
theorem sweepFirst_combine (k : WKey) :
    ∀ fs : List EtlFile,
      (∀ f ∈ fs, pyEndsWith f.name ".txt" = true) →
      (fs.map (fun f => stemOf f.name)).Nodup →
      dbOr (sweepFirst k fs)
          (sweepFirst k ((fs.filter (fun f => !f.failAt.isNone)).map clearFail)) =
        sweepFirst k (fs.map clearFail) := by
  intro fs
  induction fs with
  | nil => intro _ _; rfl
  | cons f fs2 ih =>
    intro htxt hnod
    have htf := htxt f (List.mem_cons_self f fs2)
    have htr : ∀ g ∈ fs2, pyEndsWith g.name ".txt" = true :=
      fun g hg => htxt g (List.mem_cons_of_mem f hg)
    rw [List.map_cons, List.nodup_cons] at hnod
    obtain ⟨hst, hnod2⟩ := hnod
    have IH := ih htr hnod2
    by_cases hfa : f.failAt.isNone = true
    · have heff : effLines f = f.lines := by
        cases hjf : f.failAt with
        | none => rw [effLines, hjf]
        | some j => rw [hjf] at hfa; simp at hfa
      have hfilter : (f :: fs2).filter (fun g => !g.failAt.isNone) =
          fs2.filter (fun g => !g.failAt.isNone) := by
        simp [List.filter_cons, hfa]
      rw [hfilter, List.map_cons]
      simp only [sweepFirst, htf, clearFail_name, effLines_clearFail, if_true, heff]
      rw [dbOr_assoc, IH]
    · have hfilter : (f :: fs2).filter (fun g => !g.failAt.isNone) =
          f :: fs2.filter (fun g => !g.failAt.isNone) := by
        simp [List.filter_cons, hfa]
      rw [hfilter, List.map_cons, List.map_cons]
      simp only [sweepFirst, htf, clearFail_name, effLines_clearFail, if_true]
      by_cases hks : k.1 = stemOf f.name
      · have hs2 : ∀ g ∈ fs2, stemOf g.name ≠ k.1 := by
          intro g hg he
          apply hst
          have hgf : stemOf g.name = stemOf f.name := he.trans hks
          rw [← hgf]
          exact List.mem_map_of_mem _ hg
        have hS : sweepFirst k fs2 = none := sweepFirst_none k fs2 hs2
        have hP : sweepFirst k ((fs2.filter (fun g => !g.failAt.isNone)).map clearFail) =
            none := by
          apply sweepFirst_none
          intro g hg
          obtain ⟨g0, hg0, rfl⟩ := List.mem_map.mp hg
          exact hs2 g0 (List.mem_of_mem_filter hg0)
        have hG : sweepFirst k (fs2.map clearFail) = none := by
          apply sweepFirst_none
          intro g hg
          obtain ⟨g0, hg0, rfl⟩ := List.mem_map.mp hg
          exact hs2 g0 hg0
        rw [hS, hP, hG]
        simp only [dbOr_none_right]
        obtain ⟨j, hj⟩ : ∃ j, f.failAt = some j := by
          cases hjf : f.failAt with
          | none => rw [hjf] at hfa; simp at hfa
          | some j => exact ⟨j, rfl⟩
        have heff : effLines f = f.lines.take j := by rw [effLines, hj]
        rw [heff]
        exact firstRow_take _ _ _ _
      · have hA : firstRow (stemOf f.name) k (effLines f) = none :=
          firstRow_station _ _ hks _
        have hC : firstRow (stemOf f.name) k f.lines = none :=
          firstRow_station _ _ hks _
        rw [hA, hC]
        simpa [dbOr] using IH

/-- C7: a file that fails mid-processing is not archived and stays pending,
clean files in the sweep are still processed and archived, and re-sweeping
the pending files (now succeeding) produces pointwise the same store as one
clean sweep of all files — no duplicate rows, no drift. -/
theorem C7_file_lifecycle (files : List EtlFile) (db0 : WDB) (g : EtlFile) (k : WKey)
    (htxt : ∀ f ∈ files, pyEndsWith f.name ".txt" = true)
    (hnod : (files.map (fun f => stemOf f.name)).Nodup)
    (hg : g ∈ files) (hfail : g.failAt ≠ none) :
    g.name ∉ (sweep files db0).archived ∧
    g ∈ (sweep files db0).pending ∧
    (∀ f ∈ files, f.failAt = none → f.name ∈ (sweep files db0).archived) ∧
    (sweep ((sweep files db0).pending.map clearFail) (sweep files db0).db).db k =
      (sweep (files.map clearFail) db0).db k := by
  have hinj : ∀ x ∈ files, ∀ y ∈ files,
      stemOf x.name = stemOf y.name → x = y :=
    List.inj_on_of_nodup_map hnod
  have hgiso : g.failAt.isNone = false := by
    cases hjf : g.failAt with
    | none => exact absurd hjf hfail
    | some j => rfl
  refine ⟨?_, ?_, ?_, ?_⟩
  · rw [sweep_archived_eq]
    intro hmem
    obtain ⟨f, hf1, hf2⟩ := List.mem_map.mp hmem
    have hf3 := List.mem_of_mem_filter hf1
    have hf4 := (List.mem_filter.mp hf1).2
    rw [Bool.and_eq_true] at hf4
    have hfg : f = g := by
      apply hinj f hf3 g hg
      rw [hf2]
    rw [hfg] at hf4
    rw [hgiso] at hf4
    exact Bool.noConfusion hf4.2
  · rw [sweep_pending_eq]
    rw [List.mem_filter]
    exact ⟨hg, by rw [htxt g hg, hgiso]; rfl⟩
  · intro f hf hnone
    rw [sweep_archived_eq]
    apply List.mem_map_of_mem
    rw [List.mem_filter]
    exact ⟨hf, by rw [htxt f hf, hnone]; rfl⟩
  · have hpend : (sweep files db0).pending =
        files.filter (fun f => !f.failAt.isNone) := by
      rw [sweep_pending_eq]
      apply List.filter_congr
      intro f hf
      rw [htxt f hf, Bool.true_and]
    rw [hpend, sweep_db_lookup, sweep_db_lookup, sweep_db_lookup, dbOr_assoc]
    rw [sweepFirst_combine k files htxt hnod]

/-- Witness for C7: two files, the second failing on its second line; after
the retry sweep the store agrees with a single clean pass at the retried
key. -/
theorem C7_witness : c7sweep2.db c7keyB2 = c7clean.db c7keyB2 :=
  (C7_file_lifecycle c7files emptyWDB c7fileB c7keyB2
    (by decide) (by decide) (by decide) (by decide)).2.2.2

end Weather
